import Mathlib

/-!
Verification of the batch-based inventory reconciliation core of the
pharmassist_api repository (src/api/routers/inventory_reports.py together
with src/api/models.py and src/api/database.py), as a shallow embedding.

Modelling notes, established from the source:

* database.py line 16 creates the session factory with autoflush=False.
  Consequently a SQL query issued through the session does not flush
  pending in-memory changes first: the WHERE clause and any SQL-side
  aggregate see only the rows as last flushed (or committed), while ORM
  objects returned by a query come from the identity map and therefore
  carry their current in-memory attribute values.  The embedding keeps,
  for every ProductBatch object, the in-memory state (mem), the state
  last flushed inside the open transaction (dbr, none while the object
  is still pending in db.new), and the state as of the last commit
  (cmt, none while the object has never been committed).

* deps.get_db closes the session without committing when a request
  fails, so everything after the last commit is rolled back.

* BranchProduct.low_stock_since is a nullable DateTime column added by
  migration adbd5fa2776f (src/migrations) and used throughout the
  routers; the ORM class in the models.py snapshot omits the Column
  declaration, but the persisted column defined by the migration is what
  the routers read and write, and it is embedded here as a persisted
  nullable field.  Timestamps and dates are embedded as integers (day or
  instant numbers); Float money fields (cost, srp), which no claim
  computes with, are embedded as integers as well.

* The embedding covers one branch (the branch the report is submitted
  for); the authorization check and the branch-existence lookup of
  create_inventory_report, the response re-query and the post-commit
  analytics metrics are outside every claim and are not modelled.
-/

namespace PharmAssist

/-- Branch type, models.BranchType: retail or wholesale. -/
inductive BranchKind
  | retail
  | wholesale
deriving DecidableEq, Repr

/-- Row state of one ProductBatch (models.ProductBatch, lines 284-293):
branch_id, product_id, quantity, expiration_date, is_active. -/
structure BRow where
  branchId : Int
  productId : Int
  quantity : Int
  expirationDate : Int
  isActive : Bool
deriving DecidableEq, Repr

/-- One ProductBatch object tracked by the SQLAlchemy session.  mem is the
current in-memory attribute state, dbr the row as last flushed in the open
transaction (none while the object sits in db.new), cmt the row as of the
last commit (none while the object has never been committed).  For a new
object, is_active is stored as true at creation: the column default True
(models.py line 292) is applied at flush and nothing reads the attribute
before the first flush in the modelled flows. -/
structure BatchObj where
  id : Nat
  mem : BRow
  dbr : Option BRow
  cmt : Option BRow
deriving DecidableEq, Repr

/-- Row state of one BranchProduct (models.BranchProduct plus the
low_stock_since column from migration adbd5fa2776f). -/
structure BPRow where
  branchId : Int
  productId : Int
  quantity : Int
  isAvailable : Bool
  lowStockSince : Option Int
deriving DecidableEq, Repr

/-- One BranchProduct object in the session: in-memory state and the state
as of the last commit.  BranchProduct rows pre-exist (created on branch or
product creation), so the committed state is always present; no SQL reads
an unflushed BranchProduct column in the modelled flows, hence no dbr
layer is kept for them. -/
structure BPObj where
  mem : BPRow
  cmt : BPRow
deriving DecidableEq, Repr

/-- Product row fields relevant to the report flow (models.Product). -/
structure ProductRow where
  id : Int
  cost : Int
  srp : Int
  retailLowStockThreshold : Int
  wholesaleLowStockThreshold : Int
  isRetailAvailable : Bool
  isWholesaleAvailable : Bool
deriving DecidableEq, Repr

/-- The fixed collaborators of one report submission: the branch the
report is for and the product table. -/
structure Ctx where
  branchId : Int
  branchType : BranchKind
  products : List ProductRow
deriving Repr

/-- Movement type of an InvReportBatch row (models.InvReportBatch
batch_type: the strings delivery, transfer, pull_out). -/
inductive MovementKind
  | delivery
  | transfer
  | pullOut
deriving DecidableEq, Repr

/-- One InvReportBatch row: quantity, expiration_date, batch_type. -/
structure RBRow where
  quantity : Int
  expirationDate : Int
  batchType : MovementKind
deriving DecidableEq, Repr

/-- One InvReportItem with its movement rows, as it is at commit time. -/
structure ItemRec where
  productId : Int
  beginning : Int
  sellingArea : Int
  offtake : Int
  currentCost : Int
  currentSrp : Int
  batches : List RBRow
deriving DecidableEq, Repr

/-- The InvReport being built (its line items). -/
structure ReportMem where
  items : List ItemRec
deriving DecidableEq, Repr

/-- The persistent store together with the open session.  orphans are the
InvReportBatch rows that process_batch inserts without linking them to any
report item (inventory_reports.py lines 252-259); report is the pending
InvReport of the submission in flight.  committedOrphans and
committedReport are their states as of the last commit. -/
structure DbState where
  batches : List BatchObj
  bps : List BPObj
  orphans : List RBRow
  committedOrphans : List RBRow
  report : Option ReportMem
  committedReport : Option ReportMem
  nextId : Nat
deriving DecidableEq, Repr

/-- db.flush(): write the in-memory state of every session object into the
open transaction. -/
def flushState (s : DbState) : DbState :=
  { s with batches := s.batches.map (fun o => { o with dbr := some o.mem }) }

/-- db.commit(): flush, then make the transaction durable. -/
def commitState (s : DbState) : DbState :=
  { s with
    batches := s.batches.map (fun o => { o with dbr := some o.mem, cmt := some o.mem })
    bps := s.bps.map (fun o => { o with cmt := o.mem })
    committedOrphans := s.orphans
    committedReport := s.report }

/-- Session teardown after a failed request (deps.get_db closes the
session without committing): everything since the last commit is
discarded, objects revert to their committed rows and never-committed
objects disappear. -/
def rollbackState (s : DbState) : DbState :=
  { s with
    batches := s.batches.filterMap (fun o =>
      o.cmt.map (fun r => { id := o.id, mem := r, dbr := some r, cmt := some r }))
    bps := s.bps.map (fun o => { o with mem := o.cmt })
    orphans := s.committedOrphans
    report := s.committedReport }

/-- SQL filter for active batches of one (branch, product): the WHERE
clause is evaluated on the flushed row, because autoflush is off; an
object still pending in db.new matches nothing. -/
def dbActiveFor (b p : Int) (o : BatchObj) : Bool :=
  match o.dbr with
  | some r => r.branchId = b && r.productId = p && r.isActive
  | none => false

/-- SQL filter for the single active batch of one (branch, product,
expiration_date), used by process_batch line 262 and by the pull-out
lookup line 424. -/
def dbActiveExpFor (b p e : Int) (o : BatchObj) : Bool :=
  match o.dbr with
  | some r => r.branchId = b && r.productId = p && r.isActive && r.expirationDate = e
  | none => false

/-- db.query(ProductBatch).filter(branch, product, is_active).all()
(inventory_reports.py lines 186-193): rows are selected on the flushed
state, the returned objects carry their in-memory state (identity map).
The SQL ORDER BY expiration_date is immaterial here because
update_batch_quantities re-sorts the combined list in Python. -/
def queryActiveBatches (s : DbState) (b p : Int) : List BatchObj :=
  s.batches.filter (dbActiveFor b p)

/-- The db.new harvest of update_batch_quantities (lines 195-201): every
never-flushed ProductBatch of this (branch, product).  The source applies
no is_active filter here. -/
def pendingBatchesFor (s : DbState) (b p : Int) : List BatchObj :=
  s.batches.filter (fun o => o.dbr = none && o.mem.branchId = b && o.mem.productId = p)

/-- db.query(sa.func.sum(ProductBatch.quantity)).filter(...).scalar() or 0
(lines 309-314): the aggregate runs wholly in SQL, so with autoflush off
it sees only the flushed rows and the flushed attribute values. -/
def dbActiveQuantitySum (s : DbState) (b p : Int) : Int :=
  (s.batches.filterMap (fun o => o.dbr)).foldl
    (fun acc r =>
      if r.branchId = b && r.productId = p && r.isActive then acc + r.quantity else acc)
    0

/-- Stable insertion (earlier elements stay before later elements of equal
expiration), mirroring the stability of Python sorted. -/
def insertByExp (x : BatchObj) : List BatchObj → List BatchObj
  | [] => [x]
  | y :: ys =>
    if y.mem.expirationDate < x.mem.expirationDate then y :: insertByExp x ys
    else x :: y :: ys

/-- sorted(batches + pending_batches, key=expiration_date) of line 204. -/
def sortByExp : List BatchObj → List BatchObj
  | [] => []
  | x :: xs => insertByExp x (sortByExp xs)

/-- The FEFO loop of update_batch_quantities (lines 215-222), returning the
objects it rewrote: a batch whose quantity is at most the remainder is
deactivated with its quantity left as it was, and the walk goes on with
the remainder reduced by that quantity; the first batch whose quantity
exceeds the remainder is decremented by the remainder and the loop breaks,
leaving every later batch untouched. -/
def fefoWalk (remaining : Int) : List BatchObj → List BatchObj
  | [] => []
  | o :: rest =>
    if o.mem.quantity ≤ remaining then
      { o with mem := { o.mem with isActive := false } } ::
        fefoWalk (remaining - o.mem.quantity) rest
    else
      [{ o with mem := { o.mem with quantity := o.mem.quantity - remaining } }]

/-- Write a list of rewritten objects back into the session, by object
identity (the source mutates the very objects the queries returned). -/
def applyBatchUpdates (s : DbState) (upds : List BatchObj) : DbState :=
  { s with batches := s.batches.map (fun o =>
      match upds.find? (fun u => u.id == o.id) with
      | some u => u
      | none => o) }

/-- The typed errors the report flow can surface (each an HTTPException in
the source). -/
inductive ApiError
  | productNotFound
  | notAvailableForBranchType
  | branchProductNotFound
  | insufficientStock
  | pullOutBatchNotFound
  | insufficientBatch
deriving DecidableEq, Repr

/-- update_batch_quantities (inventory_reports.py lines 182-222): combine
the flushed active batches with the pending ones, sort by expiration date,
abort with the insufficient-quantity error when the total falls short of
the requested consumption, otherwise run the FEFO walk. -/
def update_batch_quantities (s : DbState) (branchId productId usedQuantity : Int) :
    Except ApiError DbState :=
  let batches := queryActiveBatches s branchId productId
  let pending := pendingBatchesFor s branchId productId
  let allBatches := sortByExp (batches ++ pending)
  let totalAvailable := (allBatches.map (fun o => o.mem.quantity)).sum
  if totalAvailable < usedQuantity then
    Except.error ApiError.insufficientStock
  else
    Except.ok (applyBatchUpdates s (fefoWalk usedQuantity allBatches))

/-- Lookup of one product row by id (db.query(Product).get). -/
def findProduct (ctx : Ctx) (p : Int) : Option ProductRow :=
  ctx.products.find? (fun pr => pr.id == p)

/-- db.query(BranchProduct).join(Branch).join(Product).filter(branch,
product).first(): the inner joins mean the row only comes back when the
Branch and Product rows exist too; (branch_id, product_id) is the primary
key, so at most one row matches. -/
def findBP (s : DbState) (b p : Int) : Option BPObj :=
  s.bps.find? (fun o => o.mem.branchId == b && o.mem.productId == p)

/-- Update the (at most one) BranchProduct row of this (branch, product). -/
def updateBP (s : DbState) (b p : Int) (f : BPRow → BPRow) : DbState :=
  { s with bps := s.bps.map (fun o =>
      if o.mem.branchId == b && o.mem.productId == p then { o with mem := f o.mem } else o) }

/-- The two branch-type gating arms shared by process_batch (lines
239-250), update_branch_product_quantity (lines 296-307) and the per-item
validation of create_inventory_report (lines 373-382). -/
def branchTypeUnavailable (bt : BranchKind) (prod : ProductRow) : Bool :=
  (bt == BranchKind.wholesale && !prod.isWholesaleAvailable) ||
  (bt == BranchKind.retail && !prod.isRetailAvailable)

/-- Threshold selection of lines 320-324: wholesale branches use the
wholesale threshold, retail branches the retail one. -/
def thresholdFor (bt : BranchKind) (prod : ProductRow) : Int :=
  match bt with
  | BranchKind.wholesale => prod.wholesaleLowStockThreshold
  | BranchKind.retail => prod.retailLowStockThreshold

/-- ProductBatch.days_until_expiry (models.py lines 295-297), dates as day
numbers. -/
def days_until_expiry (expirationDate today : Int) : Int :=
  expirationDate - today

/-- ProductBatch.expiry_status (models.py lines 299-308). -/
def expiry_status (expirationDate today : Int) : String :=
  let days := days_until_expiry expirationDate today
  if days ≤ 0 then "expired"
  else if days ≤ 30 then "critical"
  else if days ≤ 90 then "warning"
  else "good"

/-- The viewed_by field of one InvReport row (models.InvReport line 114: a
single nullable admin user id). -/
structure InvReportRow where
  viewedBy : Option Int
deriving DecidableEq, Repr

/-- The acknowledgment step of get_inventory_report (inventory_reports.py
lines 527-530): an admin read sets viewed_by to the reading admin only
when it is still null. -/
def get_inventory_report_ack (r : InvReportRow) (isAdmin : Bool) (userId : Int) :
    InvReportRow :=
  if isAdmin = true ∧ r.viewedBy = none then { r with viewedBy := some userId } else r

/-- mark_report_as_viewed (inventory_reports.py lines 743-746): sets
viewed_by only when it is still null. -/
def mark_report_as_viewed (r : InvReportRow) (userId : Int) : InvReportRow :=
  if r.viewedBy = none then { r with viewedBy := some userId } else r

/-- One incoming or pull-out batch of the request payload
(BatchDeliveryInfo, BatchTransferInfo, PullOutBatchInfo). -/
structure BatchIn where
  quantity : Int
  expirationDate : Int
deriving DecidableEq, Repr

/-- One line item of the request payload (InvReportItemBase). -/
structure ItemIn where
  productId : Int
  beginning : Int
  offtake : Int
  sellingArea : Int
  pullOutBatches : List BatchIn
  deliveryBatches : List BatchIn
  transferBatches : List BatchIn
deriving Repr

/-- process_batch (inventory_reports.py lines 224-279) for one delivery or
transfer batch: joined BranchProduct lookup, branch-type gating, insertion
of the item-less InvReportBatch row, then the merge step: an active batch
of the same (branch, product, expiration_date) is looked up by a SQL
query, which with autoflush off can only see flushed rows, and its
quantity is incremented, otherwise a new pending ProductBatch is added. -/
def process_batch (s : DbState) (ctx : Ctx) (branchId productId : Int)
    (bi : BatchIn) (mk : MovementKind) : Except ApiError DbState :=
  match findBP s branchId productId, findProduct ctx productId with
  | none, _ => Except.error ApiError.branchProductNotFound
  | _, none => Except.error ApiError.branchProductNotFound
  | some _, some prod =>
    if branchTypeUnavailable ctx.branchType prod then
      Except.error ApiError.notAvailableForBranchType
    else
      let s := { s with orphans :=
        s.orphans ++ [(⟨bi.quantity, bi.expirationDate, mk⟩ : RBRow)] }
      match s.batches.find? (dbActiveExpFor branchId productId bi.expirationDate) with
      | some existingBatch =>
        Except.ok (applyBatchUpdates s
          [{ existingBatch with
              mem := { existingBatch.mem with
                quantity := existingBatch.mem.quantity + bi.quantity } }])
      | none =>
        Except.ok { s with
          batches := s.batches ++
            [(⟨s.nextId, ⟨branchId, productId, bi.quantity, bi.expirationDate, true⟩,
              none, none⟩ : BatchObj)],
          nextId := s.nextId + 1 }

/-- The incoming phase of one item: process_batch for each batch in order,
collecting the InvReportBatch rows appended to the report item
(inventory_reports.py lines 395-416). -/
def processIncoming (s : DbState) (ctx : Ctx) (branchId productId : Int)
    (mk : MovementKind) : List BatchIn → Except ApiError (DbState × List RBRow)
  | [] => Except.ok (s, [])
  | bi :: rest => do
    let s1 ← process_batch s ctx branchId productId bi mk
    let (s2, rbs) ← processIncoming s1 ctx branchId productId mk rest
    Except.ok (s2, ⟨bi.quantity, bi.expirationDate, mk⟩ :: rbs)

/-- One pull-out of create_inventory_report (lines 422-451): look up the
exact active batch of the client-supplied expiration date (a SQL query on
flushed rows), fail when it is absent or short of the requested quantity,
record a movement row whose expiration_date is read from the matched batch
object, then decrement that batch; nothing here deactivates the batch,
even when its quantity reaches zero. -/
def processPullOut (s : DbState) (branchId productId : Int) (bi : BatchIn) :
    Except ApiError (DbState × RBRow) :=
  match s.batches.find? (dbActiveExpFor branchId productId bi.expirationDate) with
  | none => Except.error ApiError.pullOutBatchNotFound
  | some existingBatch =>
    if existingBatch.mem.quantity < bi.quantity then
      Except.error ApiError.insufficientBatch
    else
      Except.ok
        (applyBatchUpdates s
          [{ existingBatch with
              mem := { existingBatch.mem with
                quantity := existingBatch.mem.quantity - bi.quantity } }],
         ⟨bi.quantity, existingBatch.mem.expirationDate, MovementKind.pullOut⟩)

/-- The pull-out phase of one item, in payload order. -/
def processPullOuts (s : DbState) (branchId productId : Int) :
    List BatchIn → Except ApiError (DbState × List RBRow)
  | [] => Except.ok (s, [])
  | bi :: rest => do
    let (s1, rb) ← processPullOut s branchId productId bi
    let (s2, rbs) ← processPullOuts s1 branchId productId rest
    Except.ok (s2, rb :: rbs)

/-- The per-row state update of update_branch_product_quantity (lines
316-335): quantity is overwritten with the SQL total; the low-stock timer
is started only when unset and only while the row is available and the
total is at or below the threshold, and is cleared when the total exceeds
the threshold; a row whose previous quantity was zero becomes available
again when the total is positive. -/
def recomputeBPRow (r : BPRow) (totalQuantity threshold now : Int) : BPRow :=
  let oldQuantity := r.quantity
  let r1 := { r with quantity := totalQuantity }
  let r2 :=
    if totalQuantity ≤ threshold ∧ r1.isAvailable = true then
      (if r1.lowStockSince = none then { r1 with lowStockSince := some now } else r1)
    else if totalQuantity > threshold then { r1 with lowStockSince := none }
    else r1
  if oldQuantity = 0 ∧ totalQuantity > 0 then { r2 with isAvailable := true } else r2

/-- update_branch_product_quantity (inventory_reports.py lines 281-337):
silently returns when the joined BranchProduct lookup finds nothing;
forces unavailability and clears the timer (then commits) when the product
fails the branch-type gating; otherwise overwrites quantity with the
SQL-side sum over active batch rows, which with autoflush off sees only
the flushed values, updates the low-stock state, and commits. -/
def update_branch_product_quantity (s : DbState) (ctx : Ctx)
    (branchId productId now : Int) : DbState :=
  match findBP s branchId productId, findProduct ctx productId with
  | some _, some prod =>
    if branchTypeUnavailable ctx.branchType prod then
      commitState (updateBP s branchId productId
        (fun r => { r with isAvailable := false, lowStockSince := none }))
    else
      let totalQuantity := dbActiveQuantitySum s branchId productId
      let threshold := thresholdFor ctx.branchType prod
      commitState (updateBP s branchId productId
        (fun r => recomputeBPRow r totalQuantity threshold now))
  | _, _ => s

/-- One iteration of the item loop of create_inventory_report (lines
368-465): validate the product and its branch-type availability, run the
incoming phase, flush (line 419), run the pull-out phase, consume the
offtake when positive, append the completed report item (the shell row is
appended at line 393 and filled during the phases; it is only observable
at commit points, by which time it carries exactly this content), then
recompute the aggregate, which commits.  Mutations of an item that fails
never reach a commit, so the failing request rolls back to the state at
the start of that item. -/
def processItem (s : DbState) (ctx : Ctx) (now : Int) (it : ItemIn) :
    Except ApiError DbState :=
  match findProduct ctx it.productId with
  | none => Except.error ApiError.productNotFound
  | some prod =>
    if branchTypeUnavailable ctx.branchType prod then
      Except.error ApiError.notAvailableForBranchType
    else do
      let (s1, dels) ← processIncoming s ctx ctx.branchId it.productId
        MovementKind.delivery it.deliveryBatches
      let (s2, trs) ← processIncoming s1 ctx ctx.branchId it.productId
        MovementKind.transfer it.transferBatches
      let s3 := flushState s2
      let (s4, pos) ← processPullOuts s3 ctx.branchId it.productId it.pullOutBatches
      let (s5, offtakeVal) ←
        if it.offtake > 0 then
          (update_batch_quantities s4 ctx.branchId it.productId it.offtake).map
            (fun s => (s, it.offtake))
        else Except.ok (s4, 0)
      let item : ItemRec :=
        ⟨it.productId, it.beginning, it.sellingArea, offtakeVal,
          prod.cost, prod.srp, dels ++ trs ++ pos⟩
      let s6 := { s5 with
        report := some ⟨((s5.report.map (fun r => r.items)).getD []) ++ [item]⟩ }
      Except.ok (update_branch_product_quantity s6 ctx ctx.branchId it.productId now)

/-- The item loop: items in payload order; on failure, the state at the
start of the failing item is returned together with the error (everything
the failing item changed in the session is discarded by the rollback that
follows, and none of it was committed). -/
def runItems (s : DbState) (ctx : Ctx) (now : Int) :
    List ItemIn → DbState × Option ApiError
  | [] => (s, none)
  | it :: rest =>
    match processItem s ctx now it with
    | Except.ok s1 => runItems s1 ctx now rest
    | Except.error e => (s, some e)

/-- POST /inventory-reports/ (create_inventory_report, lines 339-499): add
the report shell, process the items in order, and finish with db.commit();
any error aborts the request and the session teardown rolls back to the
last commit.  Because update_branch_product_quantity commits at the end of
every item, that last commit includes every item processed before the
failing one. -/
def create_inventory_report (s : DbState) (ctx : Ctx) (now : Int)
    (items : List ItemIn) : DbState × Except ApiError ReportMem :=
  let s0 := { s with report := some ⟨[]⟩ }
  match runItems s0 ctx now items with
  | (s1, none) =>
    let s2 := commitState s1
    (s2, Except.ok (s2.report.getD ⟨[]⟩))
  | (s1, some e) => (rollbackState s1, Except.error e)

/-- A ProductBatch row committed before the run, all three layers equal. -/
def mkBatch (id : Nat) (b p q e : Int) : BatchObj :=
  ⟨id, ⟨b, p, q, e, true⟩, some ⟨b, p, q, e, true⟩, some ⟨b, p, q, e, true⟩⟩

/-- A committed BranchProduct row. -/
def mkBP (b p q : Int) (avail : Bool) (ls : Option Int) : BPObj :=
  ⟨⟨b, p, q, avail, ls⟩, ⟨b, p, q, avail, ls⟩⟩

/-- A quiescent store: every object committed, no open report. -/
def initState (bs : List BatchObj) (bps : List BPObj) : DbState :=
  ⟨bs, bps, [], [], none, none, bs.length⟩

/-- Committed ProductBatch rows of one (branch, product). -/
def committedBatchRows (s : DbState) (b p : Int) : List BRow :=
  (s.batches.filterMap (fun o => o.cmt)).filter
    (fun r => r.branchId == b && r.productId == p)

/-- Sum of the committed active batch quantities of one (branch, product):
the right-hand side of the sum-consistency invariant. -/
def committedActiveSum (s : DbState) (b p : Int) : Int :=
  (((committedBatchRows s b p).filter (fun r => r.isActive)).map
    (fun r => r.quantity)).sum

/-- The committed BranchProduct row of one (branch, product). -/
def committedBPRow (s : DbState) (b p : Int) : Option BPRow :=
  (s.bps.map (fun o => o.cmt)).find? (fun r => r.branchId == b && r.productId == p)

/-- Decidable equality of request outcomes, so that concrete runs can be
settled by evaluation. -/
instance {ε α : Type} [DecidableEq ε] [DecidableEq α] : DecidableEq (Except ε α) := fun x y =>
  match x, y with
  | Except.ok a, Except.ok b =>
    if h : a = b then isTrue (by rw [h]) else isFalse (fun hc => h (Except.ok.inj hc))
  | Except.ok _, Except.error _ => isFalse (fun hc => Except.noConfusion hc)
  | Except.error _, Except.ok _ => isFalse (fun hc => Except.noConfusion hc)
  | Except.error a, Except.error b =>
    if h : a = b then isTrue (by rw [h]) else isFalse (fun hc => h (Except.error.inj hc))

/-- A retail branch (id 1) offering two retail products (ids 1 and 2) with
both low-stock thresholds 0 and prices 0; used by the concrete runs. -/
def ctxR : Ctx :=
  ⟨1, BranchKind.retail, [⟨1, 0, 0, 0, 0, true, false⟩, ⟨2, 0, 0, 0, 0, true, false⟩]⟩

/-- Store for the sum-consistency run: one committed active batch of 20
units and the matching aggregate row, quantity 20. -/
def c1Init : DbState := initState [mkBatch 0 1 1 20 100] [mkBP 1 1 20 true none]

/-- A single-item report consuming offtake 15 of product 1. -/
def c1Items : List ItemIn := [⟨1, 0, 15, 0, [], [], []⟩]

/-- The sum-consistency run. -/
def c1Run : DbState × Except ApiError ReportMem :=
  create_inventory_report c1Init ctxR 1000 c1Items

/-- Store for the rollback run: product 1 has no batches and aggregate 0,
product 2 has one committed batch of 10 and aggregate 10. -/
def c2Init : DbState :=
  initState [mkBatch 0 1 2 10 200] [mkBP 1 1 0 true none, mkBP 1 2 10 true none]

/-- A two-item report: item 1 delivers 20 of product 1, item 2 requests
offtake 15 of product 2 against only 10 available. -/
def c2Items : List ItemIn :=
  [⟨1, 0, 0, 0, [], [⟨20, 150⟩], []⟩, ⟨2, 0, 15, 0, [], [], []⟩]

/-- The rollback run. -/
def c2Run : DbState × Except ApiError ReportMem :=
  create_inventory_report c2Init ctxR 1000 c2Items

/-- Store for the duplicate-lot run: no batches at all for product 1. -/
def c3Init : DbState := initState [] [mkBP 1 1 0 true none]

/-- One item with two delivery batches sharing expiration date 100. -/
def c3Items : List ItemIn := [⟨1, 0, 0, 0, [], [⟨5, 100⟩, ⟨7, 100⟩], []⟩]

/-- The duplicate-lot run. -/
def c3Run : DbState × Except ApiError ReportMem :=
  create_inventory_report c3Init ctxR 1000 c3Items

/-- Store for the pull-out-to-zero run: one committed active lot of 3
units with expiration 100. -/
def c4Init : DbState := initState [mkBatch 0 1 1 3 100] [mkBP 1 1 3 true none]

/-- One item pulling out exactly the 3 units of the expiration-100 lot. -/
def c4Items : List ItemIn := [⟨1, 0, 0, 0, [⟨3, 100⟩], [], []⟩]

/-- The pull-out-to-zero run. -/
def c4Run : DbState × Except ApiError ReportMem :=
  create_inventory_report c4Init ctxR 1000 c4Items

/-- Store for the FEFO run: three committed active batches of product 1
with expirations 10 < 20 < 30 and quantities 5, 5, 5. -/
def c5Init : DbState :=
  initState [mkBatch 0 1 1 5 10, mkBatch 1 1 1 5 20, mkBatch 2 1 1 5 30]
    [mkBP 1 1 15 true none]

/-- The FEFO consume of 7 units. -/
def c5After : Except ApiError DbState := update_batch_quantities c5Init 1 1 7

/-- The same three batches stored in a different session order, to show
the walk follows expiration dates, not storage order. -/
def c5InitPerm : DbState :=
  initState [mkBatch 2 1 1 5 30, mkBatch 0 1 1 5 10, mkBatch 1 1 1 5 20]
    [mkBP 1 1 15 true none]

/-- The FEFO consume of 7 units over the permuted store. -/
def c5AfterPerm : Except ApiError DbState := update_batch_quantities c5InitPerm 1 1 7

/-- Store for the pending-writes run: no stock at all for product 1. -/
def c6Init : DbState := initState [] [mkBP 1 1 0 true none]

/-- One item that both delivers 20 units and consumes offtake 15 in the
same report. -/
def c6Items : List ItemIn := [⟨1, 0, 15, 0, [], [⟨20, 100⟩], []⟩]

/-- The pending-writes run. -/
def c6Run : DbState × Except ApiError ReportMem :=
  create_inventory_report c6Init ctxR 1000 c6Items

/-- The same item without the delivery, for contrast. -/
def c6ItemsNoDelivery : List ItemIn := [⟨1, 0, 15, 0, [], [], []⟩]

/-- Store for the witness runs of the pull-out theorems: one committed
active lot of 3 units with expiration 100 and no aggregate rows (the
pull-out step reads none). -/
def pwInit : DbState := initState [mkBatch 0 1 1 3 100] []

/-- The object the pull-out lookup finds in pwInit. -/
def pwObj : BatchObj := mkBatch 0 1 1 3 100

/-- The state the successful 3-unit pull-out over pwInit produces. -/
def pwOut : DbState :=
  ⟨[⟨0, ⟨1, 1, 0, 100, true⟩, some ⟨1, 1, 3, 100, true⟩, some ⟨1, 1, 3, 100, true⟩⟩],
    [], [], [], none, none, 1⟩

/-- A retail branch offering product 1 with low-stock threshold 10. -/
def ctxW : Ctx := ⟨1, BranchKind.retail, [⟨1, 0, 0, 10, 10, true, false⟩]⟩

/-- The product row of ctxW. -/
def prodW : ProductRow := ⟨1, 0, 0, 10, 10, true, false⟩

/-- Store for the recompute witness: one committed active batch of 5 units
and an available aggregate row of quantity 7 with no low-stock timer. -/
def c8wInit : DbState := initState [mkBatch 0 1 1 5 100] [mkBP 1 1 7 true none]

/-- C1: the claim says that after any successful inventory-report commit,
BranchProductStock.quantity equals the sum of the active StockBatch
quantities of the pair.  The code violates it: starting from one committed
active batch of 20 units and aggregate quantity 20, a report with offtake
15 commits successfully, yet the committed aggregate quantity stays 20
while the committed active batch sum is 5.  The cause: the session runs
with autoflush off (database.py line 16) and the offtake mutations of
update_batch_quantities are still unflushed when
update_branch_product_quantity computes its SQL-side sum (line 309), so
the sum reflects the pre-offtake rows; the subsequent commit (line 337)
then persists the stale aggregate together with the decremented batch. -/
theorem c1_sum_consistency_fails_after_offtake :
    c1Run.2 = Except.ok ⟨[⟨1, 0, 0, 15, 0, 0, []⟩]⟩ ∧
    (committedBPRow c1Run.1 1 1).map (fun r => r.quantity) = some 20 ∧
    committedActiveSum c1Run.1 1 1 = 5 ∧
    ¬ (committedBPRow c1Run.1 1 1).map (fun r => r.quantity) =
        some (committedActiveSum c1Run.1 1 1) := by
  decide

/-- C2: the claim says an insufficient-stock failure rolls back the entire
report submission, leaving every StockBatch and BranchProductStock record
unchanged.  The code violates it for multi-item reports: item 1 delivers
20 units of product 1, item 2 fails with the insufficient-stock error, and
the error is returned — but item 1 was already committed, because
update_branch_product_quantity ends with db.commit() (line 337) for every
item; the rollback at request teardown only discards the failing item.
The run below leaves a new committed active batch of 20 units, a committed
aggregate raised from 0 to 20, and a committed partial report holding item
1 only. -/
theorem c2_insufficient_stock_rollback_is_partial :
    c2Run.2 = Except.error ApiError.insufficientStock ∧
    committedBatchRows c2Init 1 1 = [] ∧
    committedBatchRows c2Run.1 1 1 = [⟨1, 1, 20, 150, true⟩] ∧
    (committedBPRow c2Init 1 1).map (fun r => r.quantity) = some 0 ∧
    (committedBPRow c2Run.1 1 1).map (fun r => r.quantity) = some 20 ∧
    c2Run.1.committedReport =
      some ⟨[⟨1, 0, 0, 0, 0, 0, [⟨20, 150, MovementKind.delivery⟩]⟩]⟩ := by
  decide

/-- C3: the claim says at most one active StockBatch ever exists per
(branch, product, expiration_date) triple, merging also with batches added
earlier in the same uncommitted report.  The code violates it: the merge
lookup of process_batch (line 262) is a SQL query, and with autoflush off
(database.py line 16) it cannot see a batch added earlier in the same item
that has not been flushed yet, so one item with two delivery batches of
the same expiration date creates two active batches for the same triple,
both persisted at commit. -/
theorem c3_duplicate_active_batches_same_triple :
    c3Run.2 =
      Except.ok ⟨[⟨1, 0, 0, 0, 0, 0,
        [⟨5, 100, MovementKind.delivery⟩, ⟨7, 100, MovementKind.delivery⟩]⟩]⟩ ∧
    committedBatchRows c3Run.1 1 1 = [⟨1, 1, 5, 100, true⟩, ⟨1, 1, 7, 100, true⟩] ∧
    ((committedBatchRows c3Run.1 1 1).filter
      (fun r => r.isActive && r.expirationDate == 100)).length = 2 := by
  decide

/-- C4: the claim says every operation that brings a batch quantity to
zero — including pull-out — marks the batch inactive immediately, so an
active batch quantity is always strictly positive.  The code violates it:
the pull-out arm of create_inventory_report (lines 443-451) only
decrements the matched batch and never touches is_active, so pulling out
the full 3 units of a 3-unit lot commits an active batch of quantity 0. -/
theorem c4_counterexample_pull_out_to_zero_stays_active :
    c4Run.2 = Except.ok ⟨[⟨1, 0, 0, 0, 0, 0, [⟨3, 100, MovementKind.pullOut⟩]⟩]⟩ ∧
    committedBatchRows c4Run.1 1 1 = [⟨1, 1, 0, 100, true⟩] ∧
    ((committedBatchRows c4Run.1 1 1).filter
      (fun r => r.isActive && r.quantity == 0)).length = 1 := by
  decide

/-- C4 amended: pull-out never deactivates any batch — a successful
pull-out leaves the is_active flag of every session batch exactly as it
was, so a lot emptied by pull-out stays active at quantity 0; only the
FEFO consume walk deactivates batches (those it fully consumes), and that
walk keeps their stored quantity instead of zeroing it.  The id-uniqueness
hypothesis reflects the primary key of product_batches. -/
theorem c4_amended_pull_out_never_deactivates (s : DbState) (b p : Int) (bi : BatchIn)
    (s' : DbState) (rb : RBRow)
    (hnd : (s.batches.map (fun o => o.id)).Nodup)
    (h : processPullOut s b p bi = Except.ok (s', rb)) :
    s'.batches.map (fun o => (o.id, o.mem.isActive)) =
      s.batches.map (fun o => (o.id, o.mem.isActive)) := by
  cases hf : s.batches.find? (dbActiveExpFor b p bi.expirationDate) with
  | none => simp [processPullOut, hf] at h
  | some o =>
    have ho : o ∈ s.batches := List.mem_of_find?_eq_some hf
    by_cases hq : o.mem.quantity < bi.quantity
    · simp [processPullOut, hf, hq] at h
    · simp [processPullOut, hf, hq] at h
      obtain ⟨hs', _⟩ := h
      rw [← hs']
      simp only [applyBatchUpdates, List.map_map]
      refine List.map_congr_left ?_
      intro x hx
      by_cases hid : o.id = x.id
      · have hxo : x = o := List.inj_on_of_nodup_map hnd hx ho hid.symm
        subst hxo
        simp [List.find?]
      · have hne : (({ o with mem := { o.mem with
            quantity := o.mem.quantity - bi.quantity } } : BatchObj).id == x.id) = false := by
          simp [hid]
        simp [List.find?, hne]

/-- C4 amended, witness: the 3-unit pull-out over pwInit succeeds and
leaves the (single) batch with its active flag unchanged. -/
theorem c4_amended_witness :
    pwOut.batches.map (fun o => (o.id, o.mem.isActive)) =
      pwInit.batches.map (fun o => (o.id, o.mem.isActive)) :=
  c4_amended_pull_out_never_deactivates pwInit 1 1 ⟨3, 100⟩ pwOut
    ⟨3, 100, MovementKind.pullOut⟩ (by decide) (by decide)

/-- C5: the claim says the FEFO walk subtracts min(remaining, quantity)
from each batch and that consuming 7 from quantities [5, 5, 5] leaves E1
inactive with quantity 0.  The code violates the quantity part: a batch
the walk fully consumes is deactivated with its quantity left at its old
value (lines 217-219 set is_active = False without assigning quantity), so
E1 ends inactive with quantity 5, not 0. -/
theorem c5_counterexample_full_batch_keeps_quantity :
    c5After.map (fun s => s.batches.map (fun o => (o.mem.quantity, o.mem.isActive))) =
      Except.ok [(5, false), (3, true), (5, true)] ∧
    ¬ c5After.map (fun s => s.batches.map (fun o => o.mem.quantity)) =
        Except.ok [0, 3, 5] := by
  decide

/-- C5 amended: Consume walks the active batches in ascending
expiration-date order regardless of storage order; a batch whose quantity
is at most the remainder is deactivated with its stored quantity left
unchanged, and the first batch whose quantity exceeds the remainder is
decremented by the remainder, ending the walk.  Consuming 7 from
expirations 10 < 20 < 30 with quantities [5, 5, 5] leaves E1 inactive at
quantity 5, E2 active at 3, E3 untouched at 5 — also when the session
stores the batches in a different order. -/
theorem c5_amended_fefo_walk :
    c5After.map (fun s => s.batches.map (fun o => o.mem)) =
      Except.ok [⟨1, 1, 5, 10, false⟩, ⟨1, 1, 3, 20, true⟩, ⟨1, 1, 5, 30, true⟩] ∧
    c5AfterPerm.map (fun s => s.batches.map
        (fun o => (o.id, o.mem.quantity, o.mem.isActive))) =
      Except.ok [(2, 5, true), (0, 5, false), (1, 3, true)] := by
  decide

/-- C6: the total available quantity Consume computes includes batches
added earlier in the same still-uncommitted report: starting from zero
stock, a single item that delivers 20 units and requests offtake 15
succeeds (the delivery is flushed at line 419 before the offtake runs, so
the transaction sees its own pending writes) and commits an active batch
of 5 units, while the same offtake without the delivery fails with the
insufficient-stock error. -/
theorem c6_offtake_sees_same_report_deliveries :
    c6Run.2 = Except.ok ⟨[⟨1, 0, 0, 15, 0, 0, [⟨20, 100, MovementKind.delivery⟩]⟩]⟩ ∧
    committedBatchRows c6Run.1 1 1 = [⟨1, 1, 5, 100, true⟩] ∧
    (create_inventory_report c6Init ctxR 1000 c6ItemsNoDelivery).2 =
      Except.error ApiError.insufficientStock := by
  decide

/-- C7: the pull-out step looks up the exact active batch of the
client-supplied (branch, product, expiration_date); when none exists it
fails with the not-found error, when the matched batch holds less than the
requested quantity it fails with the insufficient-batch error, and when it
succeeds the recorded movement row carries the expiration date read from
the matched batch object. -/
theorem c7_pull_out_lookup_and_errors (s : DbState) (b p q e : Int) :
    (s.batches.find? (dbActiveExpFor b p e) = none →
      processPullOut s b p ⟨q, e⟩ = Except.error ApiError.pullOutBatchNotFound) ∧
    (∀ o, s.batches.find? (dbActiveExpFor b p e) = some o →
      (o.mem.quantity < q →
        processPullOut s b p ⟨q, e⟩ = Except.error ApiError.insufficientBatch) ∧
      (¬ o.mem.quantity < q → ∃ s',
        processPullOut s b p ⟨q, e⟩ =
          Except.ok (s', ⟨q, o.mem.expirationDate, MovementKind.pullOut⟩))) := by
  refine ⟨fun hf => ?_, fun o hf => ⟨fun hq => ?_, fun hq => ?_⟩⟩
  · simp [processPullOut, hf]
  · simp [processPullOut, hf, hq]
  · refine ⟨applyBatchUpdates s
      [{ o with mem := { o.mem with quantity := o.mem.quantity - q } }], ?_⟩
    simp [processPullOut, hf, hq]

/-- C7 witness: pulling 2 of the 3 units of the expiration-100 lot
succeeds and records a pull_out row with the expiration of the matched
batch. -/
theorem c7_witness :
    ∃ s', processPullOut pwInit 1 1 ⟨2, 100⟩ =
      Except.ok (s', ⟨2, 100, MovementKind.pullOut⟩) :=
  ((c7_pull_out_lookup_and_errors pwInit 1 1 2 100).2 pwObj (by decide)).2 (by decide)

/-- C8: for a (branch, product) whose aggregate row and product row exist
and whose product passes the branch-type gating, Recompute rewrites the
row with recomputeBPRow over the SQL-side active sum and the branch-type
threshold, then commits; and the row update satisfies the claim: a total
at or below the threshold starts the low-stock timer only when it is
unset and leaves an already-set timer unchanged, a total above the
threshold clears the timer, and a row whose previous quantity was zero
becomes available again when the total is positive. -/
theorem c8_recompute_low_stock_and_reactivation (s : DbState) (ctx : Ctx)
    (b p now : Int) (bp : BPObj) (prod : ProductRow)
    (hbp : findBP s b p = some bp) (hprod : findProduct ctx p = some prod)
    (hgate : branchTypeUnavailable ctx.branchType prod = false) :
    update_branch_product_quantity s ctx b p now =
      commitState (updateBP s b p (fun r =>
        recomputeBPRow r (dbActiveQuantitySum s b p)
          (thresholdFor ctx.branchType prod) now)) ∧
    ∀ (r : BPRow) (total thr : Int),
      (r.isAvailable = true → total ≤ thr → r.lowStockSince = none →
        (recomputeBPRow r total thr now).lowStockSince = some now) ∧
      (r.isAvailable = true → total ≤ thr → r.lowStockSince ≠ none →
        (recomputeBPRow r total thr now).lowStockSince = r.lowStockSince) ∧
      (total > thr → (recomputeBPRow r total thr now).lowStockSince = none) ∧
      (r.quantity = 0 → total > 0 → (recomputeBPRow r total thr now).isAvailable = true) ∧
      (recomputeBPRow r total thr now).quantity = total := by
  constructor
  · simp [update_branch_product_quantity, hbp, hprod, hgate]
  · intro r total thr
    refine ⟨fun hav hle hn => ?_, fun hav hle hn => ?_, fun hgt => ?_,
      fun h0 hpos => ?_, ?_⟩
    · simp [recomputeBPRow, hle, hav, hn, apply_ite]
    · simp [recomputeBPRow, hle, hav, hn, apply_ite]
    · have hnle : ¬ total ≤ thr := by omega
      simp [recomputeBPRow, hnle, hgt, apply_ite]
    · simp [recomputeBPRow, h0, hpos]
    · simp only [recomputeBPRow]
      split_ifs <;> rfl

/-- C8 witness: over c8wInit (active sum 5, threshold 10) the recompute
equation holds, and the row update starts the timer at the given instant
for the looked-up row (available, timer unset, 5 at or below 10). -/
theorem c8_witness :
    update_branch_product_quantity c8wInit ctxW 1 1 777 =
      commitState (updateBP c8wInit 1 1 (fun r =>
        recomputeBPRow r (dbActiveQuantitySum c8wInit 1 1)
          (thresholdFor ctxW.branchType prodW) 777)) ∧
    (recomputeBPRow ⟨1, 1, 7, true, none⟩ 5 10 777).lowStockSince = some 777 := by
  have h := c8_recompute_low_stock_and_reactivation c8wInit ctxW 1 1 777
    (mkBP 1 1 7 true none) prodW (by decide) (by decide) (by decide)
  exact ⟨h.1, ((h.2 ⟨1, 1, 7, true, none⟩ 5 10).1 rfl (by decide) rfl)⟩

/-- C9: the expiry classifier is a pure function of the expiration date
and today; with days = expiration minus today it returns expired for days
at most 0, critical for 1..30, warning for 31..90 and good above 90. -/
theorem c9_expiry_classifier (e t : Int) :
    (days_until_expiry e t ≤ 0 → expiry_status e t = "expired") ∧
    (1 ≤ days_until_expiry e t → days_until_expiry e t ≤ 30 →
      expiry_status e t = "critical") ∧
    (31 ≤ days_until_expiry e t → days_until_expiry e t ≤ 90 →
      expiry_status e t = "warning") ∧
    (90 < days_until_expiry e t → expiry_status e t = "good") := by
  refine ⟨fun h => ?_, fun h1 h2 => ?_, fun h1 h2 => ?_, fun h => ?_⟩ <;>
    simp only [expiry_status, days_until_expiry] at * <;>
      split_ifs <;> first | rfl | (exfalso; omega)

/-- C9 witness: the four tiers at concrete dates. -/
theorem c9_witness :
    expiry_status 100 100 = "expired" ∧ expiry_status 120 100 = "critical" ∧
    expiry_status 160 100 = "warning" ∧ expiry_status 200 100 = "good" :=
  ⟨(c9_expiry_classifier 100 100).1 (by decide),
   (c9_expiry_classifier 120 100).2.1 (by decide) (by decide),
   (c9_expiry_classifier 160 100).2.2.1 (by decide) (by decide),
   (c9_expiry_classifier 200 100).2.2.2 (by decide)⟩

/-- C10: viewed_by is write-once: when it is already set, neither the
admin read of get_inventory_report nor mark_report_as_viewed changes it —
both leave the first acknowledging admin id in place. -/
theorem c10_viewed_by_write_once (r : InvReportRow) (v userId adminId : Int)
    (isAdmin : Bool) (h : r.viewedBy = some v) :
    (get_inventory_report_ack r isAdmin userId).viewedBy = some v ∧
    (mark_report_as_viewed r adminId).viewedBy = some v := by
  constructor <;> simp [get_inventory_report_ack, mark_report_as_viewed, h]

/-- C10 witness: a report already viewed by admin 5 keeps viewed_by 5
through an admin read by user 9 and a mark-viewed by user 9. -/
theorem c10_witness :
    (get_inventory_report_ack ⟨some 5⟩ true 9).viewedBy = some 5 ∧
    (mark_report_as_viewed ⟨some 5⟩ 9).viewedBy = some 5 :=
  c10_viewed_by_write_once ⟨some 5⟩ 5 9 9 true rfl

end PharmAssist
